import Mathlib

/-
Shallow embedding of the rendezvous/relay broker in src/server.js
(the most complete variant of the file: the one defining clientIdCounter,
pendingTransfers and the targeted-transfer path).

Modelling conventions:
  * A live websocket connection is identified by a Nat key; the JS `clients`
    Set (insertion ordered) becomes an association list `List (Nat × Conn)`.
  * JS field truthiness for optional string fields (undefined, null and the
    empty string are falsy) is `otruthy`; `x || d` on strings is `oval`/`strOr`.
  * The JS try/catch around the message handler is an `Except` value: the
    `.error` payload carries the state mutations and sends that happened
    before the throw (the only throws reachable in this code are reads of
    `ws.deviceInfo.id` when `deviceInfo` is null, and JSON.parse failures,
    which are the `Frame.malformed` case).
  * `fs.writeFileSync(path.join(uploadsDir, name), bytes)` becomes an
    overwriting update of the `uploads` association list keyed by filename.
  * `JSON.stringify` of broker-built reply objects is kept symbolic: each
    distinct reply shape is a `ServerMsg` constructor carrying the fields the
    code puts into the object.  The generic echo replies carry the parsed
    client message they stringify.
-/

namespace Broker

/-- The object stored in `ws.deviceInfo` by the register_device handler. -/
structure DeviceInfo where
  id : String
  deviceName : String
deriving DecidableEq

/-- The object the first variant stored in `ws.fileMetadata`; in the modelled
variant the field exists (read by the simple binary path) but is never set. -/
structure FileMeta where
  filename : String
  size : Nat
  contentType : Option String
deriving DecidableEq

/-- The value stored in the `pendingTransfers` map: the targetId plus the
fields of the announcing file_metadata message that are later read back. -/
structure PendingTransfer where
  targetId : String
  filename : String
  size : Nat
  contentType : Option String
deriving DecidableEq

/-- One entry of a file listing carried by listing messages. -/
structure FileEntry where
  name : String
  isDirectory : Bool
deriving DecidableEq

/-- Parsed structured client messages, by their `type` field.  Optional
fields are `Option` so that JS truthiness guards can be modelled. -/
inductive ClientMsg where
  | fileMetadata (filename : String) (size : Nat) (contentType : Option String)
      (targetId : Option String)
  | requestFile (targetId : Option String) (filename : Option String)
  | registerDevice (deviceName : Option String)
  | initialFileListResponse (files : List FileEntry)
  | getConnectedDevices
  | ping
  | listFiles (targetId : Option String) (path : Option String)
  | fileListResponse (requesterId : Option String) (path : Option String)
      (files : List FileEntry)
  | requestFileAccess (targetId : Option String)
  | fileAccessResponse (requesterId : Option String) (granted : Bool)
  | other (text : String)
deriving DecidableEq

/-- Messages the broker sends, one constructor per reply shape built in the
source; fields are exactly the fields the code writes into the JSON object. -/
inductive ServerMsg where
  | readyForFile
  | connectedDevices (devices : List (String × String))
  | requestInitialFileList
  | pong
  | errMsg (message : String)
  | requestFileMsg (filename : String) (fromId : String)
  | requestFileList (requesterId : String) (path : String)
  | fileListResp (sourceId : String) (sourcePath : String) (sourceName : String)
      (files : List FileEntry) (requesterId : String)
  | fileAccessReq (requesterId : String) (requesterName : String)
  | fileAccessResp (granted : Bool) (targetId : String) (targetName : String)
  | fileMetadataMsg (filename : String) (size : Nat) (contentType : Option String)
      (fromId : String)
  | binaryData (bytes : List Nat)
  | fileReceived (filename : String)
  | fileNotification (filename : String) (fromName : String)
  | fileTransferred (filename : String) (stored : Bool) (forwarded : Bool)
      (error : Option String)
  | deviceFilesUpdate (deviceId : String) (deviceName : String)
      (files : List FileEntry)
  | youSaid (data : ClientMsg)
  | someoneSaid (data : ClientMsg)
deriving DecidableEq

/-- Per-connection state: the ad hoc fields the code hangs on the ws object. -/
structure Conn where
  wsId : String
  deviceName : String
  deviceInfo : Option DeviceInfo
  fileMetadata : Option FileMeta
  isOpen : Bool
deriving DecidableEq

/-- The whole broker state: clients set, pendingTransfers map, id counter and
the uploads directory contents. -/
structure ServerState where
  clients : List (Nat × Conn)
  pendingTransfers : List (Nat × PendingTransfer)
  clientIdCounter : Nat
  uploads : List (String × List Nat)
deriving DecidableEq

/-- An inbound frame after the transport/JSON layer: a structured message, a
text frame that fails JSON.parse, or a binary payload. -/
inductive Frame where
  | structured (data : ClientMsg)
  | malformed
  | binary (bytes : List Nat)
deriving DecidableEq

/-- A send event: receiving connection key and message. -/
abbrev Send := Nat × ServerMsg

/-- JS truthiness of an optional string field (undefined and "" are falsy). -/
def otruthy : Option String → Bool
  | none => false
  | some s => !(s == "")

/-- JS `x || d` for an optional string field `x`. -/
def oval (o : Option String) (d : String) : String :=
  match o with
  | none => d
  | some s => if s = "" then d else s

/-- JS `s || d` for a plain string `s`. -/
def strOr (s d : String) : String :=
  if s = "" then d else s

/-- Association-list lookup by key (JS Map.get / object identity on ws). -/
def lookupA {α β : Type} [DecidableEq α] : List (α × β) → α → Option β
  | [], _ => none
  | (k, v) :: rest, c => if k = c then some v else lookupA rest c

/-- Association-list overwrite-or-append (JS Map.set, writeFileSync). -/
def setA {α β : Type} [DecidableEq α] : List (α × β) → α → β → List (α × β)
  | [], k, v => [(k, v)]
  | (k', v') :: rest, k, v =>
      if k' = k then (k, v) :: rest else (k', v') :: setA rest k v

/-- Association-list delete (JS Map.delete / Set.delete). -/
def delA {α β : Type} [DecidableEq α] : List (α × β) → α → List (α × β)
  | [], _ => []
  | (k', v') :: rest, k => if k' = k then rest else (k', v') :: delA rest k

/-- getClientList(): registered connections as (id, name) pairs, in set order. -/
def getClientList (cl : List (Nat × Conn)) : List (String × String) :=
  cl.filterMap fun p =>
    match p.2.deviceInfo with
    | some d => some (d.id, d.deviceName)
    | none => none

/-- Array.from(clients).find(c with c.deviceInfo and c.deviceInfo.id === tid). -/
def findDevice : List (Nat × Conn) → String → Option (Nat × Conn)
  | [], _ => none
  | (k, c) :: rest, tid =>
      match c.deviceInfo with
      | some d => if d.id = tid then some (k, c) else findDevice rest tid
      | none => findDevice rest tid

/-- Keys of the open connections other than `me` (broadcast loops that skip
the sender), in set order. -/
def othersOpen (cl : List (Nat × Conn)) (me : Nat) : List Nat :=
  (cl.filter fun p => p.1 != me && p.2.isOpen).map Prod.fst

/-- Keys of the open connections other than `me` that are registered
(the device_files_update broadcast loop). -/
def othersOpenReg (cl : List (Nat × Conn)) (me : Nat) : List Nat :=
  (cl.filter fun p => p.1 != me && p.2.isOpen && p.2.deviceInfo.isSome).map Prod.fst

/-- Keys of all open connections (broadcast loops that include the sender). -/
def openConns (cl : List (Nat × Conn)) : List Nat :=
  (cl.filter fun p => p.2.isOpen).map Prod.fst

/-- The result of one message-handler run: new state plus emitted sends. -/
abbrev HandlerRes := ServerState × List Send

/-- The default branch of the dispatcher: echo to the sender, broadcast the
payload to every other open connection. -/
def defaultEcho (st : ServerState) (me : Nat) (data : ClientMsg) :
    Except HandlerRes HandlerRes :=
  .ok (st, (me, ServerMsg.youSaid data) ::
        (othersOpen st.clients me).map fun k => (k, ServerMsg.someoneSaid data))

/-- The body of the ws.on("message") handler (inside the try block).  The
`.error` payload holds state and sends accumulated before a throw. -/
def incomingBody (st : ServerState) (me : Nat) (conn : Conn) :
    Frame → Except HandlerRes HandlerRes
  | Frame.malformed => .error (st, [])
  | Frame.binary bytes =>
    match lookupA st.pendingTransfers me with
    | some pt =>
      let st1 : ServerState :=
        ⟨st.clients, st.pendingTransfers, st.clientIdCounter,
         setA st.uploads pt.filename bytes⟩
      match findDevice st.clients pt.targetId with
      | some (tk, _) =>
        match conn.deviceInfo with
        | none => .error (st1, [])
        | some d =>
          .ok (⟨st1.clients, delA st1.pendingTransfers me, st1.clientIdCounter,
                st1.uploads⟩,
               [(tk, ServerMsg.fileMetadataMsg pt.filename pt.size pt.contentType d.id),
                (tk, ServerMsg.binaryData bytes),
                (me, ServerMsg.fileTransferred pt.filename true true none)])
      | none =>
        .ok (⟨st1.clients, delA st1.pendingTransfers me, st1.clientIdCounter,
              st1.uploads⟩,
             [(me, ServerMsg.fileTransferred pt.filename true false
                (some "Target client not found or disconnected"))])
    | none =>
      match conn.fileMetadata with
      | some fm =>
        .ok (⟨setA st.clients me ⟨conn.wsId, conn.deviceName, conn.deviceInfo,
                none, conn.isOpen⟩,
              st.pendingTransfers, st.clientIdCounter,
              setA st.uploads fm.filename bytes⟩,
             (me, ServerMsg.fileReceived fm.filename) ::
               (othersOpen st.clients me).map fun k =>
                 (k, ServerMsg.fileNotification fm.filename
                   (strOr conn.deviceName "another client")))
      | none =>
        .ok (st, [(me, ServerMsg.errMsg "Received binary data without metadata")])
  | Frame.structured data =>
    match data with
    | ClientMsg.fileMetadata fn sz ct tid =>
      if otruthy tid then
        .ok (⟨st.clients, setA st.pendingTransfers me ⟨oval tid "", fn, sz, ct⟩,
              st.clientIdCounter, st.uploads⟩,
             [(me, ServerMsg.readyForFile)])
      else defaultEcho st me data
    | ClientMsg.requestFile tid fn =>
      if otruthy tid && otruthy fn then
        match findDevice st.clients (oval tid "") with
        | some (tk, _) =>
          match conn.deviceInfo with
          | none => .error (st, [])
          | some d => .ok (st, [(tk, ServerMsg.requestFileMsg (oval fn "") d.id)])
        | none => .ok (st, [])
      else defaultEcho st me data
    | ClientMsg.registerDevice dn =>
      let conn1 : Conn :=
        ⟨conn.wsId, oval dn ("Device-" ++ conn.wsId.take 6),
         some ⟨"client_" ++ Nat.repr st.clientIdCounter, oval dn "Unknown"⟩,
         conn.fileMetadata, conn.isOpen⟩
      let cl1 := setA st.clients me conn1
      .ok (⟨cl1, st.pendingTransfers, st.clientIdCounter + 1, st.uploads⟩,
           ((openConns cl1).map fun k =>
              (k, ServerMsg.connectedDevices (getClientList cl1)))
             ++ [(me, ServerMsg.requestInitialFileList)])
    | ClientMsg.initialFileListResponse files =>
      match othersOpenReg st.clients me with
      | [] => .ok (st, [])
      | recvs =>
        match conn.deviceInfo with
        | none => .error (st, [])
        | some d =>
          .ok (st, recvs.map fun k =>
            (k, ServerMsg.deviceFilesUpdate d.id
              (strOr conn.deviceName "Unknown Device") files))
    | ClientMsg.getConnectedDevices =>
      if conn.isOpen then
        .ok (st, [(me, ServerMsg.connectedDevices (getClientList st.clients))])
      else .ok (st, [])
    | ClientMsg.ping => .ok (st, [(me, ServerMsg.pong)])
    | ClientMsg.listFiles tid p =>
      if otruthy tid then
        match findDevice st.clients (oval tid "") with
        | some (tk, _) =>
          match conn.deviceInfo with
          | none => .error (st, [])
          | some d => .ok (st, [(tk, ServerMsg.requestFileList d.id (oval p ""))])
        | none =>
          .ok (st, [(me, ServerMsg.errMsg "Target device not found or offline")])
      else defaultEcho st me data
    | ClientMsg.fileListResponse rid p files =>
      if otruthy rid then
        match findDevice st.clients (oval rid "") with
        | some (rk, _) =>
          match conn.deviceInfo with
          | none => .error (st, [])
          | some d =>
            .ok (st, [(rk, ServerMsg.fileListResp d.id (oval p "")
              (strOr conn.deviceName "Unknown Device") files (oval rid ""))])
        | none => .ok (st, [])
      else defaultEcho st me data
    | ClientMsg.requestFileAccess tid =>
      if otruthy tid then
        match findDevice st.clients (oval tid "") with
        | some (tk, _) =>
          match conn.deviceInfo with
          | none => .error (st, [])
          | some d =>
            .ok (st, [(tk, ServerMsg.fileAccessReq d.id
              (strOr conn.deviceName "Unknown Device"))])
        | none =>
          .ok (st, [(me, ServerMsg.errMsg "Target device not found or offline")])
      else defaultEcho st me data
    | ClientMsg.fileAccessResponse rid granted =>
      match rid with
      | none => .ok (st, [])
      | some r =>
        match findDevice st.clients r with
        | some (rk, _) =>
          match conn.deviceInfo with
          | none => .error (st, [])
          | some d =>
            .ok (st, [(rk, ServerMsg.fileAccessResp granted d.id conn.deviceName)])
        | none => .ok (st, [])
    | ClientMsg.other _ => defaultEcho st me data

/-- The ws.on("message") handler: look up the sender, run the body, and on a
throw append the catch-block generic error reply to the sender. -/
def incoming (st : ServerState) (me : Nat) (frame : Frame) : HandlerRes :=
  match lookupA st.clients me with
  | none => (st, [])
  | some conn =>
    match incomingBody st me conn frame with
    | .ok r => r
    | .error (st', sends) =>
        (st', sends ++ [(me, ServerMsg.errMsg "Failed to process message")])

/-- The ws.on("close") handler: remove the client and broadcast the updated
list to the remaining open connections.  pendingTransfers is not touched. -/
def closeHandler (st : ServerState) (me : Nat) : HandlerRes :=
  let cl1 := delA st.clients me
  (⟨cl1, st.pendingTransfers, st.clientIdCounter, st.uploads⟩,
   (openConns cl1).map fun k => (k, ServerMsg.connectedDevices (getClientList cl1)))

/-- The wss.on("connection") handler: add a fresh unregistered connection and
broadcast the (unchanged) registered-device list. -/
def connectHandler (st : ServerState) (me : Nat) (uuid : String) : HandlerRes :=
  let cl1 := st.clients ++ [(me, ⟨uuid, "Unknown Device", none, none, true⟩)]
  (⟨cl1, st.pendingTransfers, st.clientIdCounter, st.uploads⟩,
   (openConns cl1).map fun k => (k, ServerMsg.connectedDevices (getClientList cl1)))

/-- Messages sent to one given connection key, in order. -/
def sendsTo (sends : List Send) (k : Nat) : List ServerMsg :=
  sends.filterMap fun s => if s.1 = k then some s.2 else none

/- ### Generic association-list lemmas -/

theorem lookupA_setA_self {α β : Type} [DecidableEq α] (l : List (α × β)) (k : α)
    (v : β) : lookupA (setA l k v) k = some v := by
  induction l with
  | nil => simp [setA, lookupA]
  | cons p rest ih =>
    obtain ⟨k', v'⟩ := p
    by_cases h : k' = k
    · simp [setA, h, lookupA]
    · simp [setA, h, lookupA, ih]

theorem lookupA_setA_ne {α β : Type} [DecidableEq α] (l : List (α × β)) (k c : α)
    (v : β) (h : k ≠ c) : lookupA (setA l k v) c = lookupA l c := by
  induction l with
  | nil => simp [setA, lookupA, h]
  | cons p rest ih =>
    obtain ⟨k', v'⟩ := p
    by_cases h2 : k' = k
    · subst h2; simp [setA, lookupA, h]
    · by_cases h3 : k' = c <;> simp [setA, lookupA, h2, h3, ih, Ne.symm h]

theorem lookupA_eq_none_of_not_mem {α β : Type} [DecidableEq α]
    (l : List (α × β)) (k : α) (h : k ∉ l.map Prod.fst) : lookupA l k = none := by
  induction l with
  | nil => simp [lookupA]
  | cons p rest ih =>
    obtain ⟨k', v'⟩ := p
    simp only [List.map_cons, List.mem_cons] at h
    push_neg at h
    have hne : k' ≠ k := fun hh => h.1 hh.symm
    simp [lookupA, hne, ih h.2]

theorem lookupA_delA_self {α β : Type} [DecidableEq α] (l : List (α × β)) (k : α)
    (h : (l.map Prod.fst).Nodup) : lookupA (delA l k) k = none := by
  induction l with
  | nil => simp [delA, lookupA]
  | cons p rest ih =>
    obtain ⟨k', v'⟩ := p
    simp only [List.map_cons, List.nodup_cons] at h
    by_cases h2 : k' = k
    · subst h2
      simp [delA, lookupA_eq_none_of_not_mem rest k' h.1]
    · simp [delA, lookupA, h2, ih h.2]

theorem mem_map_fst_setA {α β : Type} [DecidableEq α] (l : List (α × β)) (k x : α)
    (v : β) : x ∈ (setA l k v).map Prod.fst ↔ x = k ∨ x ∈ l.map Prod.fst := by
  induction l with
  | nil => simp [setA]
  | cons p rest ih =>
    obtain ⟨k', v'⟩ := p
    by_cases h : k' = k
    · subst h; simp [setA]
    · simp [setA, h, ih]; tauto

theorem nodup_keys_setA {α β : Type} [DecidableEq α] (l : List (α × β)) (k : α)
    (v : β) (h : (l.map Prod.fst).Nodup) : ((setA l k v).map Prod.fst).Nodup := by
  induction l with
  | nil => simp [setA]
  | cons p rest ih =>
    obtain ⟨k', v'⟩ := p
    simp only [List.map_cons, List.nodup_cons] at h
    by_cases h2 : k' = k
    · subst h2
      have hset : setA ((k', v') :: rest) k' v = (k', v) :: rest := by simp [setA]
      rw [hset]
      simp only [List.map_cons, List.nodup_cons]
      exact ⟨h.1, h.2⟩
    · simp only [setA, if_neg h2, List.map_cons, List.nodup_cons]
      refine ⟨?_, ih h.2⟩
      rw [mem_map_fst_setA]
      push_neg
      exact ⟨h2, h.1⟩

theorem delA_sublist {α β : Type} [DecidableEq α] (l : List (α × β)) (k : α) :
    (delA l k).Sublist l := by
  induction l with
  | nil => simp [delA]
  | cons p rest ih =>
    obtain ⟨k', v'⟩ := p
    by_cases h : k' = k
    · rw [show delA ((k', v') :: rest) k = rest by simp [delA, h]]
      exact List.sublist_cons_self _ _
    · rw [show delA ((k', v') :: rest) k = (k', v') :: delA rest k by simp [delA, h]]
      exact List.Sublist.cons₂ _ ih

theorem sendsTo_map_not_mem (recvs : List Nat) (msg : ServerMsg) (k : Nat)
    (h : k ∉ recvs) : sendsTo (recvs.map fun j => (j, msg)) k = [] := by
  induction recvs with
  | nil => simp [sendsTo]
  | cons r rest ih =>
    simp only [List.mem_cons] at h
    push_neg at h
    have hne : r ≠ k := fun hh => h.1 hh.symm
    have ih2 := ih h.2
    simp only [sendsTo] at ih2 ⊢
    simp [List.filterMap_cons, if_neg hne, ih2]

theorem sendsTo_map_mem (recvs : List Nat) (msg : ServerMsg) (k : Nat)
    (hnd : recvs.Nodup) (h : k ∈ recvs) :
    sendsTo (recvs.map fun j => (j, msg)) k = [msg] := by
  induction recvs with
  | nil => simp at h
  | cons r rest ih =>
    simp only [List.nodup_cons] at hnd
    rcases List.mem_cons.mp h with h1 | h2
    · subst h1
      simp only [sendsTo, List.map_cons, List.filterMap_cons, if_pos rfl]
      have := sendsTo_map_not_mem rest msg k hnd.1
      simpa [sendsTo] using this
    · have hne : r ≠ k := fun hh => hnd.1 (hh ▸ h2)
      simp only [sendsTo, List.map_cons, List.filterMap_cons, if_neg hne]
      exact ih hnd.2 h2

/- ### Injectivity of the decimal printing used for client ids -/

theorem toDigitsCore_digits (f : Nat) : ∀ (n : Nat) (ds : List Char), n ≠ 0 → n < f →
    Nat.toDigitsCore 10 f n ds
      = ((Nat.digits 10 n).map Nat.digitChar).reverse ++ ds := by
  induction f with
  | zero => intro n ds h1 h2; omega
  | succ f ih =>
    intro n ds h1 h2
    rw [Nat.digits_def' (b := 10) (by norm_num) (Nat.pos_of_ne_zero h1)]
    show (if n / 10 = 0 then Nat.digitChar (n % 10) :: ds
          else Nat.toDigitsCore 10 f (n / 10) (Nat.digitChar (n % 10) :: ds)) = _
    by_cases h : n / 10 = 0
    · rw [if_pos h, h]
      simp
    · rw [if_neg h]
      have hlt : n / 10 < f := by
        have : n / 10 < n := Nat.div_lt_self (Nat.pos_of_ne_zero h1) (by norm_num)
        omega
      rw [ih (n / 10) (Nat.digitChar (n % 10) :: ds) h hlt]
      simp

theorem toDigits_eq_digits (n : Nat) (h : n ≠ 0) :
    Nat.toDigits 10 n = ((Nat.digits 10 n).map Nat.digitChar).reverse := by
  have h2 := toDigitsCore_digits (n + 1) n [] h (by omega)
  simpa [Nat.toDigits] using h2

theorem digitChar_inj_below : ∀ a < 10, ∀ b < 10,
    Nat.digitChar a = Nat.digitChar b → a = b := by decide

theorem map_digitChar_cancel : ∀ l1 l2 : List Nat, (∀ x ∈ l1, x < 10) →
    (∀ x ∈ l2, x < 10) → l1.map Nat.digitChar = l2.map Nat.digitChar → l1 = l2 := by
  intro l1
  induction l1 with
  | nil => intro l2 _ _ h; cases l2 <;> simp_all
  | cons a t ih =>
    intro l2 h1 h2 h
    cases l2 with
    | nil => simp at h
    | cons b t2 =>
      simp only [List.map_cons, List.cons.injEq] at h
      have ha : a < 10 := h1 a (by simp)
      have hb : b < 10 := h2 b (by simp)
      have hab : a = b := digitChar_inj_below a ha b hb h.1
      subst hab
      have := ih t2 (fun x hx => h1 x (by simp [hx]))
        (fun x hx => h2 x (by simp [hx])) h.2
      simp [this]

theorem nat_repr_injective : Function.Injective Nat.repr := by
  intro m n h
  have hd : Nat.toDigits 10 m = Nat.toDigits 10 n := congrArg String.data h
  by_cases hm : m = 0 <;> by_cases hn : n = 0
  · omega
  · exfalso
    subst hm
    have h0 : Nat.toDigits 10 0 = ['0'] := rfl
    rw [h0, toDigits_eq_digits n hn] at hd
    have hd2 : (Nat.digits 10 n).map Nat.digitChar = ['0'] := by
      have := congrArg List.reverse hd
      simpa using this.symm
    have hmap : (Nat.digits 10 n).map Nat.digitChar = [0].map Nat.digitChar := by
      simpa using hd2
    have hdig := map_digitChar_cancel _ _
      (fun x hx => Nat.digits_lt_base (by norm_num) hx) (by simp) hmap
    have hzero := Nat.ofDigits_digits 10 n
    rw [hdig] at hzero
    simp [Nat.ofDigits] at hzero
    exact hn hzero.symm
  · exfalso
    subst hn
    have h0 : Nat.toDigits 10 0 = ['0'] := rfl
    rw [h0, toDigits_eq_digits m hm] at hd
    have hd2 : (Nat.digits 10 m).map Nat.digitChar = ['0'] := by
      have := congrArg List.reverse hd
      simpa using this
    have hmap : (Nat.digits 10 m).map Nat.digitChar = [0].map Nat.digitChar := by
      simpa using hd2
    have hdig := map_digitChar_cancel _ _
      (fun x hx => Nat.digits_lt_base (by norm_num) hx) (by simp) hmap
    have hzero := Nat.ofDigits_digits 10 m
    rw [hdig] at hzero
    simp [Nat.ofDigits] at hzero
    exact hm hzero.symm
  · rw [toDigits_eq_digits m hm, toDigits_eq_digits n hn] at hd
    have hmap := List.reverse_injective hd
    have hdig := map_digitChar_cancel _ _
      (fun x hx => Nat.digits_lt_base (by norm_num) hx)
      (fun x hx => Nat.digits_lt_base (by norm_num) hx) hmap
    have h1 := Nat.ofDigits_digits 10 m
    rw [hdig, Nat.ofDigits_digits] at h1
    exact h1.symm

theorem clientId_injective :
    Function.Injective fun k : Nat => "client_" ++ Nat.repr k := by
  intro m n h
  apply nat_repr_injective
  have hd := congrArg String.data h
  simp only [String.data_append] at hd
  exact String.ext (List.append_cancel_left hd)

/- ### Characterization of a register_device step, and registration traces -/

theorem incoming_register (st : ServerState) (me : Nat) (conn : Conn)
    (dn : Option String) (hconn : lookupA st.clients me = some conn) :
    (incoming st me (Frame.structured (ClientMsg.registerDevice dn))).1
      = ⟨setA st.clients me
           ⟨conn.wsId, oval dn ("Device-" ++ conn.wsId.take 6),
            some ⟨"client_" ++ Nat.repr st.clientIdCounter, oval dn "Unknown"⟩,
            conn.fileMetadata, conn.isOpen⟩,
         st.pendingTransfers, st.clientIdCounter + 1, st.uploads⟩ := by
  simp [incoming, hconn, incomingBody]

/-- The ids actually stored on the registering connections along a sequence of
register_device events: after each step, the id found in the sender's
deviceInfo is recorded (the empty record cases are unreachable when the
senders are connected). -/
def regTraceIds : ServerState → List (Nat × Option String) → List String
  | _, [] => []
  | st, (c, dn) :: rest =>
    (match lookupA ((incoming st c
        (Frame.structured (ClientMsg.registerDevice dn))).1.clients) c with
     | some conn =>
       match conn.deviceInfo with
       | some d => [d.id]
       | none => []
     | none => []) ++
    regTraceIds ((incoming st c
      (Frame.structured (ClientMsg.registerDevice dn))).1) rest

/-- The broker state after a sequence of register_device events. -/
def runRegs (st : ServerState) (evs : List (Nat × Option String)) : ServerState :=
  evs.foldl (fun s e =>
    (incoming s e.1 (Frame.structured (ClientMsg.registerDevice e.2))).1) st

theorem register_preserves_presence (st : ServerState) (me c : Nat) (conn : Conn)
    (dn : Option String) (hconn : lookupA st.clients me = some conn)
    (hc : (lookupA st.clients c).isSome) :
    (lookupA ((incoming st me
      (Frame.structured (ClientMsg.registerDevice dn))).1.clients) c).isSome := by
  rw [incoming_register st me conn dn hconn]
  by_cases h : me = c
  · subst h
    rw [lookupA_setA_self]
    rfl
  · show (lookupA (setA st.clients me _) c).isSome
    rw [lookupA_setA_ne _ _ _ _ h]
    exact hc

theorem regTraceIds_characterization :
    ∀ (evs : List (Nat × Option String)) (st : ServerState),
    (∀ e ∈ evs, (lookupA st.clients e.1).isSome) →
    regTraceIds st evs
      = (List.range' st.clientIdCounter evs.length).map
          (fun k => "client_" ++ Nat.repr k)
    ∧ (runRegs st evs).clientIdCounter = st.clientIdCounter + evs.length := by
  intro evs
  induction evs with
  | nil => intro st _; simp [regTraceIds, runRegs]
  | cons e rest ih =>
    intro st h
    obtain ⟨c, dn⟩ := e
    have hc : (lookupA st.clients c).isSome := h (c, dn) (by simp)
    obtain ⟨conn, hconn⟩ : ∃ conn, lookupA st.clients c = some conn := by
      cases hl : lookupA st.clients c
      · rw [hl] at hc; simp at hc
      · exact ⟨_, rfl⟩
    have hstep := incoming_register st c conn dn hconn
    have hrest : ∀ e ∈ rest,
        (lookupA ((incoming st c
          (Frame.structured (ClientMsg.registerDevice dn))).1.clients) e.1).isSome :=
      fun e he => register_preserves_presence st c e.1 conn dn hconn
        (h e (by simp [he]))
    obtain ⟨ih1, ih2⟩ := ih
      ((incoming st c (Frame.structured (ClientMsg.registerDevice dn))).1) hrest
    constructor
    · simp only [regTraceIds]
      rw [hstep] at ih1 ⊢
      rw [ih1]
      simp [lookupA_setA_self, List.range'_succ]
    · simp only [runRegs, List.foldl_cons] at ih2 ⊢
      rw [hstep] at ih2 ⊢
      rw [ih2]
      simp
      omega

/- ### Concrete fixtures for counterexamples and witnesses -/

/-- An open, registered connection with the given uuid, client id and name. -/
def connReg (uuid id nm : String) : Conn := ⟨uuid, nm, some ⟨id, nm⟩, none, true⟩

/-- An open connection that never sent register_device. -/
def connUnreg (uuid : String) : Conn := ⟨uuid, "Unknown Device", none, none, true⟩

/-- Two registered, open connections; empty pending map and blob store. -/
def twoRegState : ServerState :=
  ⟨[(0, connReg "u0" "client_1" "A"), (1, connReg "u1" "client_2" "B")], [], 3, []⟩

/-- Connection 0 is unregistered and holds a pending transfer addressed to the
registered connection 1. -/
def unregPendingState : ServerState :=
  ⟨[(0, connUnreg "u0"), (1, connReg "u1" "client_1" "B")],
   [(0, ⟨"client_1", "a.txt", 3, none⟩)], 2, []⟩

/- ### The claims -/

/-- C1: the claim says a file_metadata frame without targetId stores the
metadata on the sending connection, and the next binary frame is written to
the blob store, acknowledged with file_received, and announced to the other
connections with file_notification.  The code does not do this: the
file_metadata handler only fires when targetId is truthy, so a target-less
file_metadata frame falls through to the default echo-and-broadcast branch,
nothing is stored on the connection (the state is unchanged), and the
following binary frame is rejected with an error while the blob store stays
empty.  This theorem evaluates both steps at the failing input. -/
theorem C1_simple_transfer_missing :
    incoming twoRegState 0
        (Frame.structured (ClientMsg.fileMetadata "a.txt" 3 none none))
      = (twoRegState,
         [(0, ServerMsg.youSaid (ClientMsg.fileMetadata "a.txt" 3 none none)),
          (1, ServerMsg.someoneSaid (ClientMsg.fileMetadata "a.txt" 3 none none))])
    ∧ incoming twoRegState 0 (Frame.binary [97, 98, 99])
      = (twoRegState,
         [(0, ServerMsg.errMsg "Received binary data without metadata")]) := by
  constructor <;> decide

/-- C2 counterexample: an unregistered sender holds a pending transfer whose
target resolves to a registered connection.  The claim says the target then
receives the metadata and binary frames and the sender receives
file_transferred with stored and forwarded true.  Instead the read of the
null deviceInfo throws after the file is written: the only message sent is
the generic catch-block error to the sender, the target receives nothing,
and the pending entry survives. -/
theorem C2_counterexample :
    incoming unregPendingState 0 (Frame.binary [97, 98, 99])
      = (⟨unregPendingState.clients, [(0, ⟨"client_1", "a.txt", 3, none⟩)], 2,
          [("a.txt", [97, 98, 99])]⟩,
         [(0, ServerMsg.errMsg "Failed to process message")]) := by decide

/-- C2 (amended): for a connection with a pending transfer, the next binary
frame is always persisted under the recorded filename; PROVIDED THE SENDER IS
REGISTERED, a resolving target receives the metadata frame then the binary
frame and the sender receives file_transferred stored and forwarded; if the
target does not resolve the sender receives file_transferred with
forwarded false and an error text, the bytes still being stored.  (An
unregistered sender with a resolving target instead hits the catch block, as
the counterexample shows.) -/
theorem C2_targeted_transfer (st : ServerState) (me : Nat) (conn : Conn)
    (pt : PendingTransfer) (bytes : List Nat)
    (hnd : (st.pendingTransfers.map Prod.fst).Nodup)
    (hconn : lookupA st.clients me = some conn)
    (hpt : lookupA st.pendingTransfers me = some pt) :
    lookupA (incoming st me (Frame.binary bytes)).1.uploads pt.filename = some bytes
    ∧ (∀ d tk tconn, conn.deviceInfo = some d →
        findDevice st.clients pt.targetId = some (tk, tconn) →
        (incoming st me (Frame.binary bytes)).2
          = [(tk, ServerMsg.fileMetadataMsg pt.filename pt.size pt.contentType d.id),
             (tk, ServerMsg.binaryData bytes),
             (me, ServerMsg.fileTransferred pt.filename true true none)]
        ∧ lookupA (incoming st me (Frame.binary bytes)).1.pendingTransfers me = none)
    ∧ (findDevice st.clients pt.targetId = none →
        (incoming st me (Frame.binary bytes)).2
          = [(me, ServerMsg.fileTransferred pt.filename true false
               (some "Target client not found or disconnected"))]
        ∧ lookupA (incoming st me (Frame.binary bytes)).1.pendingTransfers me
            = none) := by
  cases hf : findDevice st.clients pt.targetId with
  | none =>
    refine ⟨?_, ?_, ?_⟩
    · simp [incoming, hconn, incomingBody, hpt, hf, lookupA_setA_self]
    · intro d tk tconn hd hcontra
      exact Option.noConfusion hcontra
    · intro _
      constructor
      · simp [incoming, hconn, incomingBody, hpt, hf]
      · simp [incoming, hconn, incomingBody, hpt, hf, lookupA_delA_self _ _ hnd]
  | some t =>
    obtain ⟨tk, tconn⟩ := t
    cases hd : conn.deviceInfo with
    | none =>
      refine ⟨?_, ?_, ?_⟩
      · simp [incoming, hconn, incomingBody, hpt, hf, hd, lookupA_setA_self]
      · intro d _ _ hd2 _
        exact Option.noConfusion hd2
      · intro hcontra
        exact Option.noConfusion hcontra
    | some d =>
      refine ⟨?_, ?_, ?_⟩
      · simp [incoming, hconn, incomingBody, hpt, hf, hd, lookupA_setA_self]
      · intro d' tk' tconn' hd2 hf2
        injection hd2 with hd3
        injection hf2 with hf3
        subst hd3
        obtain ⟨h1, h2⟩ := Prod.mk.injEq .. ▸ hf3
        subst h1
        subst h2
        constructor
        · simp [incoming, hconn, incomingBody, hpt, hf, hd]
        · simp [incoming, hconn, incomingBody, hpt, hf, hd,
            lookupA_delA_self _ _ hnd]
      · intro hcontra
        exact Option.noConfusion hcontra

/-- Witness state for C2: a registered sender with a pending transfer to the
registered connection 1. -/
def regPendingState : ServerState :=
  ⟨[(0, connReg "u0" "client_1" "A"), (1, connReg "u1" "client_2" "B")],
   [(0, ⟨"client_2", "a.txt", 3, none⟩)], 3, []⟩

/-- C2 witness: the amended theorem applied at a concrete registered sender
whose pending transfer is addressed to the registered connection 1. -/
theorem C2_targeted_transfer_witness :
    ((regPendingState.pendingTransfers.map Prod.fst).Nodup
     ∧ lookupA regPendingState.clients 0 = some (connReg "u0" "client_1" "A")
     ∧ lookupA regPendingState.pendingTransfers 0
         = some ⟨"client_2", "a.txt", 3, none⟩
     ∧ (connReg "u0" "client_1" "A").deviceInfo = some ⟨"client_1", "A"⟩
     ∧ findDevice regPendingState.clients "client_2"
         = some (1, connReg "u1" "client_2" "B"))
    ∧ lookupA (incoming regPendingState 0 (Frame.binary [97, 98, 99])).1.uploads
        "a.txt" = some [97, 98, 99]
    ∧ (incoming regPendingState 0 (Frame.binary [97, 98, 99])).2
        = [(1, ServerMsg.fileMetadataMsg "a.txt" 3 none "client_1"),
           (1, ServerMsg.binaryData [97, 98, 99]),
           (0, ServerMsg.fileTransferred "a.txt" true true none)]
    ∧ lookupA (incoming regPendingState 0
        (Frame.binary [97, 98, 99])).1.pendingTransfers 0 = none :=
  ⟨⟨by decide, by decide, by decide, by decide, by decide⟩,
   (C2_targeted_transfer regPendingState 0 (connReg "u0" "client_1" "A")
     ⟨"client_2", "a.txt", 3, none⟩ [97, 98, 99]
     (by decide) (by decide) (by decide)).1,
   ((C2_targeted_transfer regPendingState 0 (connReg "u0" "client_1" "A")
     ⟨"client_2", "a.txt", 3, none⟩ [97, 98, 99]
     (by decide) (by decide) (by decide)).2.1 ⟨"client_1", "A"⟩ 1
     (connReg "u1" "client_2" "B") (by decide) (by decide)).1,
   ((C2_targeted_transfer regPendingState 0 (connReg "u0" "client_1" "A")
     ⟨"client_2", "a.txt", 3, none⟩ [97, 98, 99]
     (by decide) (by decide) (by decide)).2.1 ⟨"client_1", "A"⟩ 1
     (connReg "u1" "client_2" "B") (by decide) (by decide)).2⟩

/-- C3 counterexample: a registered connection sends request_file with an
unresolvable targetId.  The claim says the sender receives an error; the
code's request_file handler has no else branch, so nothing at all is sent and
the state is unchanged. -/
theorem C3_counterexample :
    incoming twoRegState 0
        (Frame.structured (ClientMsg.requestFile (some "client_99") (some "a.txt")))
      = (twoRegState, []) := by decide

/-- C3 (amended): when the targetId (or requesterId) of a relay message does
not resolve to a registered device, no other connection receives any message
and the state is unchanged; the sender receives the "Target device not found
or offline" error only for list_files and request_file_access, while
request_file, file_list_response and file_access_response are silently
dropped. -/
theorem C3_unresolved_relay_target (st : ServerState) (me : Nat) (conn : Conn)
    (tid : String) (p : Option String) (files : List FileEntry)
    (g : Bool) (fn : String) (htid : tid ≠ "") (hfn : fn ≠ "")
    (hconn : lookupA st.clients me = some conn)
    (hfind : findDevice st.clients tid = none) :
    incoming st me (Frame.structured (ClientMsg.listFiles (some tid) p))
      = (st, [(me, ServerMsg.errMsg "Target device not found or offline")])
    ∧ incoming st me (Frame.structured (ClientMsg.requestFileAccess (some tid)))
      = (st, [(me, ServerMsg.errMsg "Target device not found or offline")])
    ∧ incoming st me
        (Frame.structured (ClientMsg.requestFile (some tid) (some fn)))
      = (st, [])
    ∧ incoming st me
        (Frame.structured (ClientMsg.fileListResponse (some tid) p files))
      = (st, [])
    ∧ incoming st me
        (Frame.structured (ClientMsg.fileAccessResponse (some tid) g))
      = (st, []) := by
  have hov : oval (some tid) "" = tid := by simp [oval, htid]
  refine ⟨?_, ?_, ?_, ?_, ?_⟩ <;>
    simp [incoming, hconn, incomingBody, otruthy, htid, hfn, hov, hfind]

/-- C3 witness: the amended theorem applied to a registered sender and the
unknown target id client_99. -/
theorem C3_unresolved_relay_target_witness :
    ((("client_99" : String) ≠ "" ∧ ("a.txt" : String) ≠ ""
      ∧ lookupA twoRegState.clients 0 = some (connReg "u0" "client_1" "A")
      ∧ findDevice twoRegState.clients "client_99" = none)
     ∧ (incoming twoRegState 0
          (Frame.structured (ClientMsg.listFiles (some "client_99") none))
        = (twoRegState,
           [(0, ServerMsg.errMsg "Target device not found or offline")])
        ∧ incoming twoRegState 0
            (Frame.structured (ClientMsg.requestFileAccess (some "client_99")))
          = (twoRegState,
             [(0, ServerMsg.errMsg "Target device not found or offline")])
        ∧ incoming twoRegState 0
            (Frame.structured
              (ClientMsg.requestFile (some "client_99") (some "a.txt")))
          = (twoRegState, [])
        ∧ incoming twoRegState 0
            (Frame.structured
              (ClientMsg.fileListResponse (some "client_99") none []))
          = (twoRegState, [])
        ∧ incoming twoRegState 0
            (Frame.structured
              (ClientMsg.fileAccessResponse (some "client_99") false))
          = (twoRegState, []))) :=
  ⟨⟨by decide, by decide, by decide, by decide⟩,
   C3_unresolved_relay_target twoRegState 0 (connReg "u0" "client_1" "A")
     "client_99" none [] false "a.txt" (by decide) (by decide)
     (by decide) (by decide)⟩

/-- The textual client id allocated for a given counter value. -/
def clientIdStr (k : Nat) : String := "client_" ++ Nat.repr k

theorem clientIdStr_injective : Function.Injective clientIdStr :=
  clientId_injective

/-- C4: along any sequence of N register_device events from connected senders,
the ids stored on the registering connections are exactly
clientIdStr applied to counter, counter+1, ..., counter+N-1 — strictly
increasing in allocation order, pairwise distinct, never reused (every later
allocation uses a strictly larger counter), and the counter advances by N.
Since regTraceIds reads the sender's stored deviceInfo after each step, the
equality also shows a re-registration overwrites the previous Device with the
freshly allocated id. -/
theorem C4_register_device_ids (evs : List (Nat × Option String))
    (st : ServerState) (h : ∀ e ∈ evs, (lookupA st.clients e.1).isSome) :
    regTraceIds st evs
      = (List.range' st.clientIdCounter evs.length).map clientIdStr
    ∧ (regTraceIds st evs).Nodup
    ∧ (runRegs st evs).clientIdCounter = st.clientIdCounter + evs.length := by
  obtain ⟨h1, h2⟩ := regTraceIds_characterization evs st h
  refine ⟨h1, ?_, h2⟩
  rw [h1]
  exact List.Nodup.map clientId_injective (List.nodup_range' _ _)

/-- Two connected but not yet registered clients, counter at its initial 1. -/
def regWitState : ServerState :=
  ⟨[(0, connUnreg "u0"), (1, connUnreg "u1")], [], 1, []⟩

/-- C4 witness: three registrations (the third re-registers connection 0)
allocate client_1, client_2, client_3, pairwise distinct, counter 4. -/
theorem C4_register_device_ids_witness :
    regTraceIds regWitState [(0, some "A"), (1, none), (0, some "B")]
      = (List.range' regWitState.clientIdCounter 3).map clientIdStr
    ∧ (regTraceIds regWitState [(0, some "A"), (1, none), (0, some "B")]).Nodup
    ∧ (runRegs regWitState
        [(0, some "A"), (1, none), (0, some "B")]).clientIdCounter
      = regWitState.clientIdCounter + 3
    ∧ regTraceIds regWitState [(0, some "A"), (1, none), (0, some "B")]
      = ["client_1", "client_2", "client_3"] :=
  ⟨(C4_register_device_ids [(0, some "A"), (1, none), (0, some "B")]
      regWitState (by decide)).1,
   (C4_register_device_ids [(0, some "A"), (1, none), (0, some "B")]
      regWitState (by decide)).2.1,
   (C4_register_device_ids [(0, some "A"), (1, none), (0, some "B")]
      regWitState (by decide)).2.2,
   by decide⟩

/-- C5 counterexample: connection 0 is unregistered and its pending transfer
resolves to the registered connection 1.  The binary frame is consumed (the
bytes are stored in the blob store) yet the pending entry survives, because
the throw at the null deviceInfo skips the deletion: deletion is not
unconditional. -/
theorem C5_counterexample :
    lookupA ((incoming unregPendingState 0
        (Frame.binary [97, 98, 99])).1.pendingTransfers) 0
      = some ⟨"client_1", "a.txt", 3, none⟩
    ∧ lookupA ((incoming unregPendingState 0
        (Frame.binary [97, 98, 99])).1.uploads) "a.txt"
      = some [97, 98, 99] := by decide

/-- C5 (amended): a file_metadata frame with a truthy targetId overwrites the
sender's pending entry (last-write-wins) and keeps the map keyed uniquely per
sender; the entry is deleted by the next binary frame PROVIDED the handler
does not throw, that is when the sender is registered or the target does not
resolve.  (With an unregistered sender and a resolving target the entry
survives, as the counterexample shows.) -/
theorem C5_pending_lifecycle (st : ServerState) (me : Nat) (conn : Conn)
    (fn : String) (sz : Nat) (ct : Option String) (tid : String)
    (pt : PendingTransfer) (bytes : List Nat)
    (hconn : lookupA st.clients me = some conn)
    (htid : tid ≠ "")
    (hnd : (st.pendingTransfers.map Prod.fst).Nodup) :
    ((incoming st me (Frame.structured
        (ClientMsg.fileMetadata fn sz ct (some tid)))).1.pendingTransfers
        = setA st.pendingTransfers me ⟨tid, fn, sz, ct⟩
     ∧ lookupA (setA st.pendingTransfers me ⟨tid, fn, sz, ct⟩) me
        = some ⟨tid, fn, sz, ct⟩
     ∧ ((setA st.pendingTransfers me ⟨tid, fn, sz, ct⟩).map Prod.fst).Nodup)
    ∧ (lookupA st.pendingTransfers me = some pt →
       (conn.deviceInfo.isSome ∨ findDevice st.clients pt.targetId = none) →
       lookupA (incoming st me (Frame.binary bytes)).1.pendingTransfers me
        = none) := by
  have hov : oval (some tid) "" = tid := by simp [oval, htid]
  refine ⟨⟨?_, lookupA_setA_self _ _ _, nodup_keys_setA _ _ _ hnd⟩, ?_⟩
  · simp [incoming, hconn, incomingBody, otruthy, htid, hov]
  · intro hpt hcase
    rcases hcase with hreg | hmiss
    · obtain ⟨d, hd⟩ := Option.isSome_iff_exists.mp hreg
      cases hf : findDevice st.clients pt.targetId with
      | none =>
        simp [incoming, hconn, incomingBody, hpt, hf, lookupA_delA_self _ _ hnd]
      | some t =>
        obtain ⟨tk, tconn⟩ := t
        simp [incoming, hconn, incomingBody, hpt, hf, hd,
          lookupA_delA_self _ _ hnd]
    · cases hd : conn.deviceInfo with
      | none =>
        simp [incoming, hconn, incomingBody, hpt, hmiss,
          lookupA_delA_self _ _ hnd]
      | some d =>
        simp [incoming, hconn, incomingBody, hpt, hmiss, hd,
          lookupA_delA_self _ _ hnd]

/-- C5 witness: the amended theorem applied to a registered sender holding a
pending transfer; the new file_metadata replaces the entry, and the binary
frame deletes it. -/
theorem C5_pending_lifecycle_witness :
    (lookupA regPendingState.clients 0 = some (connReg "u0" "client_1" "A")
     ∧ ("client_9" : String) ≠ ""
     ∧ (regPendingState.pendingTransfers.map Prod.fst).Nodup
     ∧ lookupA regPendingState.pendingTransfers 0
        = some ⟨"client_2", "a.txt", 3, none⟩
     ∧ ((connReg "u0" "client_1" "A").deviceInfo.isSome
        ∨ findDevice regPendingState.clients
            (PendingTransfer.mk "client_2" "a.txt" 3 none).targetId = none))
    ∧ ((incoming regPendingState 0 (Frame.structured
        (ClientMsg.fileMetadata "b.txt" 5 none (some "client_9")))).1.pendingTransfers
        = setA regPendingState.pendingTransfers 0 ⟨"client_9", "b.txt", 5, none⟩
      ∧ lookupA (setA regPendingState.pendingTransfers 0
          ⟨"client_9", "b.txt", 5, none⟩) 0 = some ⟨"client_9", "b.txt", 5, none⟩
      ∧ ((setA regPendingState.pendingTransfers 0
          ⟨"client_9", "b.txt", 5, none⟩).map Prod.fst).Nodup)
    ∧ lookupA (incoming regPendingState 0
        (Frame.binary [97, 98, 99])).1.pendingTransfers 0 = none :=
  ⟨⟨by decide, by decide, by decide, by decide, Or.inl (by decide)⟩,
   (C5_pending_lifecycle regPendingState 0 (connReg "u0" "client_1" "A")
      "b.txt" 5 none "client_9" ⟨"client_2", "a.txt", 3, none⟩ [97, 98, 99]
      (by decide) (by decide) (by decide)).1,
   (C5_pending_lifecycle regPendingState 0 (connReg "u0" "client_1" "A")
      "b.txt" 5 none "client_9" ⟨"client_2", "a.txt", 3, none⟩ [97, 98, 99]
      (by decide) (by decide) (by decide)).2 (by decide) (Or.inl (by decide))⟩

theorem openConns_delA_nodup (cl : List (Nat × Conn)) (me : Nat)
    (h : (cl.map Prod.fst).Nodup) : (openConns (delA cl me)).Nodup := by
  have hsub : (openConns (delA cl me)).Sublist (cl.map Prod.fst) := by
    unfold openConns
    exact List.Sublist.map Prod.fst
      ((List.filter_sublist _).trans (delA_sublist cl me))
  exact List.Nodup.sublist hsub h

/-- Registered connections 0 and 1, with a pending transfer keyed to 0. -/
def pendingCloseState : ServerState :=
  ⟨[(0, connReg "u0" "client_1" "A"), (1, connReg "u1" "client_2" "B")],
   [(0, ⟨"client_2", "a.txt", 3, none⟩)], 3, []⟩

/-- C6 counterexample: the close handler does not touch pendingTransfers, so
the pending entry keyed to the disconnecting connection 0 is NOT discarded. -/
theorem C6_counterexample :
    (closeHandler pendingCloseState 0).1.pendingTransfers
      = [(0, ⟨"client_2", "a.txt", 3, none⟩)] := by decide

/-- C6 (amended): on close the connection is removed from the registry and
every remaining open connection receives exactly one connected_devices
message computed from the post-removal registry; nobody else receives
anything and no error is sent; the pendingTransfers map, however, is left
unchanged (the entry keyed to the closing connection is merely orphaned, not
discarded). -/
theorem C6_close_behavior (st : ServerState) (me : Nat)
    (hnd : (st.clients.map Prod.fst).Nodup) :
    (closeHandler st me).1.clients = delA st.clients me
    ∧ (closeHandler st me).1.pendingTransfers = st.pendingTransfers
    ∧ (∀ k, k ∈ openConns (delA st.clients me) →
        sendsTo (closeHandler st me).2 k
          = [ServerMsg.connectedDevices (getClientList (delA st.clients me))])
    ∧ (∀ k, k ∉ openConns (delA st.clients me) →
        sendsTo (closeHandler st me).2 k = [])
    ∧ (∀ k m, (k, ServerMsg.errMsg m) ∉ (closeHandler st me).2) := by
  refine ⟨rfl, rfl, ?_, ?_, ?_⟩
  · intro k hk
    exact sendsTo_map_mem _ _ _ (openConns_delA_nodup st.clients me hnd) hk
  · intro k hk
    exact sendsTo_map_not_mem _ _ _ hk
  · intro k m hmem
    simp [closeHandler] at hmem

/-- C6 witness: closing the registered connection 0 removes it, broadcasts
the remaining list exactly once to connection 1, sends nothing to 0, sends
no error, and leaves the pending entry in the map. -/
theorem C6_close_behavior_witness :
    ((pendingCloseState.clients.map Prod.fst).Nodup)
    ∧ (closeHandler pendingCloseState 0).1.clients
        = delA pendingCloseState.clients 0
    ∧ (closeHandler pendingCloseState 0).1.pendingTransfers
        = pendingCloseState.pendingTransfers
    ∧ sendsTo (closeHandler pendingCloseState 0).2 1
        = [ServerMsg.connectedDevices
            (getClientList (delA pendingCloseState.clients 0))]
    ∧ sendsTo (closeHandler pendingCloseState 0).2 0 = []
    ∧ (0, ServerMsg.errMsg "x") ∉ (closeHandler pendingCloseState 0).2 :=
  ⟨by decide,
   (C6_close_behavior pendingCloseState 0 (by decide)).1,
   (C6_close_behavior pendingCloseState 0 (by decide)).2.1,
   (C6_close_behavior pendingCloseState 0 (by decide)).2.2.1 1 (by decide),
   (C6_close_behavior pendingCloseState 0 (by decide)).2.2.2.1 0 (by decide),
   (C6_close_behavior pendingCloseState 0 (by decide)).2.2.2.2 0 "x"⟩

/-- C7: a structured frame whose payload fails to parse is caught by the
catch block: the state (registry, pending transfers, blob store) is unchanged
and the only message emitted is the single generic error to the sender, so
nothing reaches any other connection and the dispatcher (a total function)
does not crash. -/
theorem C7_malformed_caught (st : ServerState) (me : Nat) (conn : Conn)
    (hconn : lookupA st.clients me = some conn) :
    incoming st me Frame.malformed
      = (st, [(me, ServerMsg.errMsg "Failed to process message")]) := by
  simp [incoming, hconn, incomingBody]

/-- C7 witness: the theorem applied at a concrete two-client state. -/
theorem C7_malformed_caught_witness :
    lookupA twoRegState.clients 0 = some (connReg "u0" "client_1" "A")
    ∧ incoming twoRegState 0 Frame.malformed
      = (twoRegState, [(0, ServerMsg.errMsg "Failed to process message")]) :=
  ⟨by decide,
   C7_malformed_caught twoRegState 0 (connReg "u0" "client_1" "A") (by decide)⟩

/-- C8: a binary frame from a connection with neither a pending transfer nor
stored simple-transfer metadata is answered with an error to the sender only;
the state is unchanged, so in particular nothing is written to the blob
store, and the handler does not crash. -/
theorem C8_binary_no_metadata (st : ServerState) (me : Nat) (conn : Conn)
    (bytes : List Nat)
    (hconn : lookupA st.clients me = some conn)
    (hpt : lookupA st.pendingTransfers me = none)
    (hfm : conn.fileMetadata = none) :
    incoming st me (Frame.binary bytes)
      = (st, [(me, ServerMsg.errMsg "Received binary data without metadata")]) := by
  simp [incoming, hconn, incomingBody, hpt, hfm]

/-- C8 witness: the theorem applied at a concrete two-client state. -/
theorem C8_binary_no_metadata_witness :
    (lookupA twoRegState.clients 0 = some (connReg "u0" "client_1" "A")
     ∧ lookupA twoRegState.pendingTransfers 0 = none
     ∧ (connReg "u0" "client_1" "A").fileMetadata = none)
    ∧ incoming twoRegState 0 (Frame.binary [1, 2, 3])
      = (twoRegState,
         [(0, ServerMsg.errMsg "Received binary data without metadata")]) :=
  ⟨⟨by decide, by decide, by decide⟩,
   C8_binary_no_metadata twoRegState 0 (connReg "u0" "client_1" "A") [1, 2, 3]
     (by decide) (by decide) (by decide)⟩

/-- Connection 0 is unregistered but holds BOTH a pending transfer addressed
to the registered connection 1 AND simple-transfer metadata. -/
def bothSetState : ServerState :=
  ⟨[(0, ⟨"u0", "Unknown Device", none, some ⟨"b.txt", 5, none⟩, true⟩),
    (1, connReg "u1" "client_1" "B")],
   [(0, ⟨"client_1", "a.txt", 3, none⟩)], 2, []⟩

/-- C9 counterexample: with both records present, the binary frame takes the
pending path, but because the (unregistered) sender's deviceInfo read throws
after the target is found, the deletion is skipped: the pending entry is NOT
deleted, contradicting the claim that it always is. -/
theorem C9_counterexample :
    lookupA ((incoming bothSetState 0
        (Frame.binary [1, 2, 3])).1.pendingTransfers) 0
      = some ⟨"client_1", "a.txt", 3, none⟩ := by decide

/-- C9 (amended): when a connection holds both a pending transfer and simple
file metadata, the next binary frame is consumed exclusively by the pending
path: the sender's connection record (hence its stored file metadata) is left
untouched, no file_received or file_notification is emitted, and the bytes
go to the blob store under the pending filename; the pending entry is deleted
provided the handler does not throw (sender registered or target absent). -/
theorem C9_pending_priority (st : ServerState) (me : Nat) (conn : Conn)
    (pt : PendingTransfer) (fm : FileMeta) (bytes : List Nat)
    (hconn : lookupA st.clients me = some conn)
    (hpt : lookupA st.pendingTransfers me = some pt)
    (hfm : conn.fileMetadata = some fm) :
    lookupA (incoming st me (Frame.binary bytes)).1.clients me = some conn
    ∧ (∀ k, (k, ServerMsg.fileReceived fm.filename)
        ∉ (incoming st me (Frame.binary bytes)).2)
    ∧ (∀ k nm, (k, ServerMsg.fileNotification fm.filename nm)
        ∉ (incoming st me (Frame.binary bytes)).2)
    ∧ lookupA (incoming st me (Frame.binary bytes)).1.uploads pt.filename
        = some bytes
    ∧ ((st.pendingTransfers.map Prod.fst).Nodup →
       (conn.deviceInfo.isSome ∨ findDevice st.clients pt.targetId = none) →
       lookupA (incoming st me (Frame.binary bytes)).1.pendingTransfers me
        = none) := by
  cases hf : findDevice st.clients pt.targetId with
  | none =>
    refine ⟨?_, ?_, ?_, ?_, ?_⟩
    · simp [incoming, hconn, incomingBody, hpt, hf]
    · intro k
      simp [incoming, hconn, incomingBody, hpt, hf]
    · intro k nm
      simp [incoming, hconn, incomingBody, hpt, hf]
    · simp [incoming, hconn, incomingBody, hpt, hf, lookupA_setA_self]
    · intro hnd _
      simp [incoming, hconn, incomingBody, hpt, hf, lookupA_delA_self _ _ hnd]
  | some t =>
    obtain ⟨tk, tconn⟩ := t
    cases hd : conn.deviceInfo with
    | none =>
      refine ⟨?_, ?_, ?_, ?_, ?_⟩
      · simp [incoming, hconn, incomingBody, hpt, hf, hd]
      · intro k
        simp [incoming, hconn, incomingBody, hpt, hf, hd]
      · intro k nm
        simp [incoming, hconn, incomingBody, hpt, hf, hd]
      · simp [incoming, hconn, incomingBody, hpt, hf, hd, lookupA_setA_self]
      · intro hnd hcase
        rcases hcase with hreg | hmiss
        · simp at hreg
        · exact Option.noConfusion hmiss
    | some d =>
      refine ⟨?_, ?_, ?_, ?_, ?_⟩
      · simp [incoming, hconn, incomingBody, hpt, hf, hd]
      · intro k
        simp [incoming, hconn, incomingBody, hpt, hf, hd]
      · intro k nm
        simp [incoming, hconn, incomingBody, hpt, hf, hd]
      · simp [incoming, hconn, incomingBody, hpt, hf, hd, lookupA_setA_self]
      · intro hnd _
        simp [incoming, hconn, incomingBody, hpt, hf, hd,
          lookupA_delA_self _ _ hnd]

/-- A registered connection holding simple-transfer metadata as well. -/
def bothConn : Conn :=
  ⟨"u0", "A", some ⟨"client_1", "A"⟩, some ⟨"b.txt", 5, none⟩, true⟩

/-- A registered connection 0 holding both a pending transfer to the
registered connection 1 and simple-transfer metadata. -/
def bothSetRegState : ServerState :=
  ⟨[(0, bothConn), (1, connReg "u1" "client_2" "B")],
   [(0, ⟨"client_2", "a.txt", 3, none⟩)], 3, []⟩

/-- C9 witness: the amended theorem applied at the registered sender: the
pending entry is consumed, the stored simple metadata survives untouched. -/
theorem C9_pending_priority_witness :
    (lookupA bothSetRegState.clients 0 = some bothConn
     ∧ lookupA bothSetRegState.pendingTransfers 0
       = some ⟨"client_2", "a.txt", 3, none⟩
     ∧ bothConn.fileMetadata = some ⟨"b.txt", 5, none⟩)
    ∧ lookupA (incoming bothSetRegState 0 (Frame.binary [1, 2, 3])).1.clients 0
      = some bothConn
    ∧ (1, ServerMsg.fileReceived "b.txt")
      ∉ (incoming bothSetRegState 0 (Frame.binary [1, 2, 3])).2
    ∧ (1, ServerMsg.fileNotification "b.txt" "A")
      ∉ (incoming bothSetRegState 0 (Frame.binary [1, 2, 3])).2
    ∧ lookupA (incoming bothSetRegState 0 (Frame.binary [1, 2, 3])).1.uploads
        "a.txt" = some [1, 2, 3]
    ∧ lookupA (incoming bothSetRegState 0
        (Frame.binary [1, 2, 3])).1.pendingTransfers 0 = none :=
  ⟨⟨by decide, by decide, by decide⟩,
   (C9_pending_priority bothSetRegState 0 bothConn ⟨"client_2", "a.txt", 3, none⟩
      ⟨"b.txt", 5, none⟩ [1, 2, 3] (by decide) (by decide) (by decide)).1,
   (C9_pending_priority bothSetRegState 0 bothConn ⟨"client_2", "a.txt", 3, none⟩
      ⟨"b.txt", 5, none⟩ [1, 2, 3] (by decide) (by decide) (by decide)).2.1 1,
   (C9_pending_priority bothSetRegState 0 bothConn ⟨"client_2", "a.txt", 3, none⟩
      ⟨"b.txt", 5, none⟩ [1, 2, 3] (by decide) (by decide) (by decide)).2.2.1 1 "A",
   (C9_pending_priority bothSetRegState 0 bothConn ⟨"client_2", "a.txt", 3, none⟩
      ⟨"b.txt", 5, none⟩ [1, 2, 3] (by decide) (by decide) (by decide)).2.2.2.1,
   (C9_pending_priority bothSetRegState 0 bothConn ⟨"client_2", "a.txt", 3, none⟩
      ⟨"b.txt", 5, none⟩ [1, 2, 3] (by decide) (by decide)
      (by decide)).2.2.2.2 (by decide) (Or.inl (by decide))⟩

/-- C10: a relay message (request_file, list_files, request_file_access) from
a connection that never registered, addressed to a target that does resolve,
throws on the null deviceInfo read before anything is sent to the target: the
catch block sends the generic error to the sender, the state is unchanged,
and the target receives nothing. -/
theorem C10_unregistered_relay_sender (st : ServerState) (me : Nat)
    (conn : Conn) (tid fn : String) (tk : Nat) (tconn : Conn) (p : Option String)
    (hconn : lookupA st.clients me = some conn)
    (hunreg : conn.deviceInfo = none)
    (htid : tid ≠ "") (hfn : fn ≠ "")
    (hfind : findDevice st.clients tid = some (tk, tconn)) :
    incoming st me (Frame.structured (ClientMsg.requestFile (some tid) (some fn)))
      = (st, [(me, ServerMsg.errMsg "Failed to process message")])
    ∧ incoming st me (Frame.structured (ClientMsg.listFiles (some tid) p))
      = (st, [(me, ServerMsg.errMsg "Failed to process message")])
    ∧ incoming st me (Frame.structured (ClientMsg.requestFileAccess (some tid)))
      = (st, [(me, ServerMsg.errMsg "Failed to process message")]) := by
  have hov : oval (some tid) "" = tid := by simp [oval, htid]
  refine ⟨?_, ?_, ?_⟩ <;>
    simp [incoming, hconn, incomingBody, otruthy, htid, hfn, hov, hfind, hunreg]

/-- Connection 0 never registered; connection 1 is registered as client_1. -/
def unregSenderState : ServerState :=
  ⟨[(0, connUnreg "u0"), (1, connReg "u1" "client_1" "B")], [], 2, []⟩

/-- C10 witness: the theorem applied at the concrete unregistered sender 0
with resolving target client_1. -/
theorem C10_unregistered_relay_sender_witness :
    (lookupA unregSenderState.clients 0 = some (connUnreg "u0")
     ∧ (connUnreg "u0").deviceInfo = none
     ∧ ("client_1" : String) ≠ "" ∧ ("a.txt" : String) ≠ ""
     ∧ findDevice unregSenderState.clients "client_1"
       = some (1, connReg "u1" "client_1" "B"))
    ∧ (incoming unregSenderState 0
        (Frame.structured (ClientMsg.requestFile (some "client_1") (some "a.txt")))
      = (unregSenderState, [(0, ServerMsg.errMsg "Failed to process message")])
      ∧ incoming unregSenderState 0
          (Frame.structured (ClientMsg.listFiles (some "client_1") none))
        = (unregSenderState, [(0, ServerMsg.errMsg "Failed to process message")])
      ∧ incoming unregSenderState 0
          (Frame.structured (ClientMsg.requestFileAccess (some "client_1")))
        = (unregSenderState, [(0, ServerMsg.errMsg "Failed to process message")])) :=
  ⟨⟨by decide, by decide, by decide, by decide, by decide⟩,
   C10_unregistered_relay_sender unregSenderState 0 (connUnreg "u0")
     "client_1" "a.txt" 1 (connReg "u1" "client_1" "B") none
     (by decide) (by decide) (by decide) (by decide) (by decide)⟩

end Broker
